import Mathlib

/-!
Verification development for the Coding Buddy analytical core: a shallow
embedding of the three analytical engines of the repository — the static
code analyzer (`src/code_analyzer.py`), the concept-graph recommendation
engine (`src/recommendation_engine.py`) and the progress tracker
(`src/progress_tracker.py`) — together with theorems settling the frozen
claims about them.

Modelling conventions:
* Python strings are modelled as `String` / `List Char`; the text
  operations the analyzer uses (`lower`, `strip`, `split`, substring
  membership, the restricted regular expressions of the pattern tables)
  are defined here over `List Char` so that they compute.
* The Python `ast` module is an external parser: its outcome is passed to
  the analyzer as an explicit `Except String PyTree` argument, where
  `Except.error msg` models `ast.parse` raising `SyntaxError(msg)` and
  `Except.ok tree` models a successful parse.  The syntax tree itself is
  modelled by `PyTree` below.
* Scores in the analyzer are Python floats, but every arithmetic step the
  analyzer performs on them is integral, so they are embedded as `Int`.
  Importance weights, learning-time multipliers and the tracker's metric
  values are embedded as `ℚ`.
* Database access (submission history) is external: the derived inputs the
  functions actually consume (recent pattern list, the learner's concept
  set, the ordered submission history) are passed in as arguments.
-/

namespace CodingBuddy

/-! ## Text utilities (Python `str` operations over `List Char`) -/

/-- ASCII lower-casing of one character, modelling Python `str.lower` for
the ASCII range (all pattern-table signatures are ASCII). -/
def lower_char (c : Char) : Char :=
  if 'A' ≤ c ∧ c ≤ 'Z' then Char.ofNat (c.toNat + 32) else c

/-- Lower-case a character list, modelling Python `code.lower()`. -/
def lower (s : List Char) : List Char := s.map lower_char

/-- Characters removed by Python `str.strip()`. -/
def is_py_space (c : Char) : Bool :=
  c = ' ' || c = '\t' || c = '\n' || c = '\r' || c = '\x0b' || c = '\x0c'

/-- Python `code.strip()`: drop leading and trailing whitespace. -/
def strip (s : List Char) : List Char :=
  ((s.dropWhile is_py_space).reverse.dropWhile is_py_space).reverse

/-- Python `s.split('\x5cn')`: note that splitting the empty string yields
one empty field, so the result is always non-empty. -/
def split_lines : List Char → List (List Char)
  | [] => [[]]
  | c :: cs =>
    if c = '\n' then [] :: split_lines cs
    else
      match split_lines cs with
      | [] => [[c]]
      | l :: ls => (c :: l) :: ls

/-- Python substring membership `pat in hay`. -/
def has_sub (pat : List Char) : List Char → Bool
  | [] => pat.isEmpty
  | c :: rest => pat.isPrefixOf (c :: rest) || has_sub pat rest

/-- Substring membership at `String` level, `str_in pat s` = Python
`pat in s`. -/
def str_in (pat s : String) : Bool := has_sub pat.data s.data

/-- Find the leftmost occurrence of `pat` and return the characters after
it, or `none` when `pat` does not occur. -/
def drop_past (pat : List Char) : List Char → Option (List Char)
  | [] => if pat.isEmpty then some [] else none
  | c :: rest =>
    if pat.isPrefixOf (c :: rest) then some (List.drop pat.length (c :: rest))
    else drop_past pat rest

/-- Ordered occurrence of all literal pieces inside one line.  A leftmost
greedy scan decides existence of an ordered match. -/
def pieces_in_order : List (List Char) → List Char → Bool
  | [], _ => true
  | p :: ps, s =>
    match drop_past p s with
    | some rest => pieces_in_order ps rest
    | none => false

/-- Case-insensitive search for one Pattern Library regular expression,
modelling Python `re.search(p, code, re.IGNORECASE)`.  Every regex in the
library is a sequence of literal pieces separated by `.*`; `.` does not
match a newline and no piece contains a newline, so a match exists exactly
when some line of the lower-cased text contains the (lower-cased) pieces in
order. -/
def re_search_ci (pat : List String) (code : String) : Bool :=
  (split_lines (lower code.data)).any (fun line => pieces_in_order (pat.map (·.data)) line)

/-- Python word characters for the `\x5cb` boundary (ASCII range). -/
def is_word_char (c : Char) : Bool :=
  ('a' ≤ c && c ≤ 'z') || ('A' ≤ c && c ≤ 'Z') || ('0' ≤ c && c ≤ '9') || c = '_'

/-- Scan for a lone lower-case letter: a position whose character is in
`a`-`z` while the neighbouring characters (when they exist) are not word
characters.  `prev_word` records whether the previous character was a word
character. -/
def single_letter_scan (prev_word : Bool) : List Char → Bool
  | [] => false
  | c :: rest =>
    (!prev_word && ('a' ≤ c && c ≤ 'z')
      && !(match rest with | [] => false | d :: _ => is_word_char d))
    || single_letter_scan (is_word_char c) rest

/-- Python `re.search(r'\x5cb[a-z]\x5cb', code)` as a Boolean. -/
def has_single_letter_name (code : String) : Bool :=
  single_letter_scan false code.data

/-- Python `str.lower()` at `String` level (used for the language tag). -/
def py_lower (s : String) : String := String.mk (lower s.data)

/-! ## Python AST model

`PyTree` is a first-child/next-sibling encoding of a Python abstract
syntax forest: `PyTree.node k children rest` is a node of kind `k` whose
child forest is `children`, followed by its right siblings `rest`.  A
parsed module is the forest of its body.  Only the node kinds the analyzer
distinguishes are represented; every other node is `otherNode`.  The
`srcLines` payload of a function definition records
`len(ast.get_source_segment(code, node).split('\x5cn'))`, which the
analyzer reads off the parse but which depends on source positions that
only the external parser knows. -/

inductive PyKind where
  | functionDef (name : String) (srcLines : Nat)
  | forStmt
  | asyncForStmt
  | whileStmt
  | ifStmt
  | exceptHandler
  | boolOp (numValues : Nat)
  | callName
  | otherNode
deriving DecidableEq

inductive PyTree where
  | nil
  | node (kind : PyKind) (children : PyTree) (rest : PyTree)
deriving DecidableEq

/-- Number of nodes in a forest. -/
def tree_size : PyTree → Nat
  | .nil => 0
  | .node _ c r => 1 + tree_size c + tree_size r

/-- Append two sibling chains. -/
def tree_append : PyTree → PyTree → PyTree
  | .nil, t => t
  | .node k c r, t => .node k c (tree_append r t)

/-- Kinds of the nodes of one sibling level, left to right. -/
def level_kinds : PyTree → List PyKind
  | .nil => []
  | .node k _ r => k :: level_kinds r

/-- Concatenated child forests of one sibling level. -/
def level_rest : PyTree → PyTree
  | .nil => .nil
  | .node _ c r => tree_append c (level_rest r)

theorem tree_size_append (a b : PyTree) :
    tree_size (tree_append a b) = tree_size a + tree_size b := by
  induction a with
  | nil => simp [tree_append, tree_size]
  | node k c r ihc ihr => simp [tree_append, tree_size, ihr]; omega

theorem tree_size_level_rest (t : PyTree) :
    tree_size (level_rest t) + (level_kinds t).length = tree_size t := by
  induction t with
  | nil => simp [level_rest, level_kinds, tree_size]
  | node k c r ihc ihr =>
    simp [level_rest, level_kinds, tree_size, tree_size_append]
    omega

theorem level_rest_size_lt (k : PyKind) (c r : PyTree) :
    tree_size (level_rest (.node k c r)) < tree_size (.node k c r) := by
  have h := tree_size_level_rest (PyTree.node k c r)
  simp [level_kinds] at h
  omega

/-- Breadth-first walk of a forest, yielding the kind of every node.  This
models the traversal order of Python `ast.walk`, which visits nodes
breadth first. -/
def walk_bfs : PyTree → List PyKind
  | .nil => []
  | .node k c r =>
    level_kinds (.node k c r) ++ walk_bfs (level_rest (.node k c r))
termination_by t => tree_size t
decreasing_by
  simp_wf
  apply level_rest_size_lt

def is_function_def : PyKind → Bool
  | .functionDef .. => true
  | _ => false

/-- `ast.For` or `ast.While` (the loop kinds counted by the `loops` metric
and by the `LoopCounter` visitor; `ast.AsyncFor` is not among them). -/
def is_loop_node : PyKind → Bool
  | .forStmt | .whileStmt => true
  | _ => false

def is_if_node : PyKind → Bool
  | .ifStmt => true
  | _ => false

/-- Branch kinds of the cyclomatic-complexity count:
`(ast.If, ast.While, ast.For, ast.AsyncFor)`. -/
def is_branch_node : PyKind → Bool
  | .ifStmt | .whileStmt | .forStmt | .asyncForStmt => true
  | _ => false

def is_except_handler : PyKind → Bool
  | .exceptHandler => true
  | _ => false

/-- An `ast.Call` node whose callee is a bare `ast.Name`. -/
def is_call_name : PyKind → Bool
  | .callName => true
  | _ => false

/-- Per-node contribution of `_calculate_cyclomatic_complexity`: branch
nodes and exception handlers add 1, a boolean operator over `n` operands
adds `n - 1`. -/
def cyclomatic_contrib (k : PyKind) : Nat :=
  if is_branch_node k then 1
  else if is_except_handler k then 1
  else
    match k with
    | .boolOp n => n - 1
    | _ => 0

/-- Embedding of `_calculate_cyclomatic_complexity`: base complexity 1
plus the contribution of every walked node. -/
def calculate_cyclomatic_complexity (tree : PyTree) : Nat :=
  (walk_bfs tree).foldl (fun acc k => acc + cyclomatic_contrib k) 1

/-- Embedding of the `LoopCounter` visitor of `_estimate_time_complexity`:
maximum `for`/`while` nesting depth reached during a depth-first
traversal. -/
def loop_nesting : PyTree → Nat
  | .nil => 0
  | .node k c r =>
    max ((if is_loop_node k then 1 else 0) + loop_nesting c) (loop_nesting r)

/-- Embedding of the `NestingChecker` visitor of `_detect_code_issues`:
maximum `if` nesting depth. -/
def if_nesting : PyTree → Nat
  | .nil => 0
  | .node k c r =>
    max ((if is_if_node k then 1 else 0) + if_nesting c) (if_nesting r)

/-! ## Pattern Library

Static tables of `CodeAnalyzer.__init__`, transcribed from the source.
Each regular expression is represented by its list of literal pieces (the
fragments separated by `.*`), lower-cased because every search that uses
them passes `re.IGNORECASE`; `\x5c[` and `\x5c(` escapes denote the
literal bracket characters. -/

def algorithm_patterns : List (String × List (List String)) := [
  ("dynamic_programming",
    [["dp[", "]"], ["memo[", "]"], ["cache[", "]"], ["@lru_cache"], ["@cache"], ["tabulation"]]),
  ("greedy",
    [["greedy"], ["local", "optimal"], ["sort", "reverse"], ["heappush"], ["heappop"],
     ["priority", "queue"]]),
  ("divide_and_conquer",
    [["divide", "conquer"], ["merge", "sort"], ["quick", "sort"], ["binary", "search"],
     ["recursion", "half"]]),
  ("backtracking",
    [["backtrack"], ["dfs", "return"], ["recursive", "choice"], ["restore", "state"],
     ["prune", "branch"]]),
  ("sliding_window",
    [["sliding", "window"], ["two", "pointer"], ["left", "right"], ["window", "size"],
     ["expand", "contract"]]),
  ("tree_traversal",
    [["inorder"], ["preorder"], ["postorder"], ["level", "order"], ["bfs"], ["dfs"],
     ["queue", "append"], ["stack", "append"]]),
  ("graph_algorithms",
    [["dijkstra"], ["bellman", "ford"], ["floyd", "warshall"], ["union", "find"],
     ["topological", "sort"], ["adjacency"]])]

def data_structure_patterns : List (String × List (List String)) := [
  ("array", [["list["], ["array["], ["[]"], ["append("], ["pop("]]),
  ("hash_table", [["dict("], ["defaultdict"], ["counter"], ["set("]]),
  ("linked_list", [["listnode"], ["next"], ["head"], ["tail"]]),
  ("stack", [["stack"], ["append("], ["pop("], ["lifo"]]),
  ("queue", [["queue"], ["deque"], ["popleft"], ["appendleft"], ["fifo"]]),
  ("heap", [["heapq"], ["heappush"], ["heappop"], ["priority", "queue"]]),
  ("tree", [["treenode"], ["left"], ["right"], ["root"], ["leaf"]]),
  ("graph", [["graph"], ["adjacency"], ["edges"], ["vertices"], ["neighbors"]])]

def time_complexity_indicators : List (String × List (List String)) := [
  ("O(1)", [["constant", "time"], ["single", "operation"]]),
  ("O(log n)", [["binary", "search"], ["tree", "height"], ["heap", "operation"]]),
  ("O(n)", [["linear", "search"], ["single", "loop"], ["one", "pass"]]),
  ("O(n log n)", [["merge", "sort"], ["heap", "sort"], ["sort("]]),
  ("O(n^2)", [["nested", "loop"], ["double", "loop"], ["quadratic"]]),
  ("O(2^n)", [["exponential"], ["all", "subsets"], ["brute", "force"]])]

def space_complexity_indicators : List (String × List (List String)) := [
  ("O(1)", [["constant", "space"], ["in", "place"]]),
  ("O(n)", [["auxiliary", "array"], ["recursion", "stack"], ["hash", "table"]]),
  ("O(n^2)", [["2d", "array"], ["matrix"], ["nested", "structure"]])]

/-- Keyword table of `_detect_patterns` (plain lower-case substring
checks, not regular expressions). -/
def pattern_checks : List (String × List String) := [
  ("two_pointers", ["left", "right", "start", "end", "i", "j"]),
  ("sliding_window", ["window", "left", "right", "expand", "contract"]),
  ("fast_slow_pointers", ["slow", "fast", "tortoise", "hare"]),
  ("merge_intervals", ["merge", "interval", "overlap", "start", "end"]),
  ("cyclic_sort", ["cycle", "sort", "position", "place"]),
  ("tree_dfs", ["dfs", "depth", "recursive", "left", "right"]),
  ("tree_bfs", ["bfs", "breadth", "level", "queue"]),
  ("topological_sort", ["topological", "indegree", "outdegree", "kahn"]),
  ("binary_search", ["binary", "search", "mid", "left", "right"]),
  ("modified_binary_search", ["rotated", "pivot", "search", "sorted"])]

/-! ## Static Code Analyzer -/

/-- The metrics dictionary: a key that was never assigned is `none`
(`analysis['metrics'].get(key, 0)` then reads 0). -/
structure Metrics where
  lines_of_code : Option Nat := none
  functions : Option Nat := none
  loops : Option Nat := none
  conditionals : Option Nat := none
  cyclomatic_complexity : Option Nat := none
deriving DecidableEq

/-- The analysis dictionary produced by `analyze_code`.  The two scores
are Python floats, but every operation performed on them is integral, so
they are embedded as `Int`. -/
structure Analysis where
  language : String
  complexity_score : Int
  quality_score : Int
  patterns : List String
  algorithms : List String
  data_structures : List String
  time_complexity : String
  space_complexity : String
  metrics : Metrics
  issues : List String
  suggestions : List String
deriving DecidableEq

/-- Embedding of `_detect_patterns`: a pattern tag is present when any of
its keywords occurs in the lower-cased source. -/
def detect_patterns (code : String) : List String :=
  pattern_checks.filterMap (fun pc =>
    if pc.2.any (fun kw => has_sub kw.data (lower code.data)) then some pc.1 else none)

/-- Embedding of `_detect_algorithms`: an algorithm tag is present when
any of its regular expressions matches (membership, not a count). -/
def detect_algorithms (code : String) : List String :=
  algorithm_patterns.filterMap (fun ap =>
    if ap.2.any (fun p => re_search_ci p code) then some ap.1 else none)

/-- Embedding of `_detect_data_structures`. -/
def detect_data_structures (code : String) : List String :=
  data_structure_patterns.filterMap (fun dp =>
    if dp.2.any (fun p => re_search_ci p code) then some dp.1 else none)

/-- Embedding of `_estimate_time_complexity` (structural path):
classification by maximum loop-nesting depth, with a sort/heap keyword
refining the single-loop case. -/
def estimate_time_complexity (code : String) (tree : PyTree) : String :=
  let maxNesting := loop_nesting tree
  if maxNesting = 0 then "O(1)"
  else if maxNesting = 1 then
    if ["sort", "heappush", "heappop"].any (fun p => has_sub p.data (lower code.data)) then
      "O(n log n)"
    else "O(n)"
  else if maxNesting = 2 then "O(n^2)"
  else "O(n^" ++ toString maxNesting ++ ")"

/-- Embedding of `_estimate_space_complexity` (structural path).  The
`dict`/`set`/`list` checks are case-sensitive substring tests on the raw
source; the recursion check is the presence of any call to a bare name. -/
def estimate_space_complexity (code : String) (tree : PyTree) : String :=
  if has_sub "dict".data code.data || has_sub "set".data code.data
      || has_sub "list".data code.data then "O(n)"
  else if (walk_bfs tree).any is_call_name then "O(n)"
  else "O(1)"

/-- Embedding of `_estimate_time_complexity_regex` (fallback path): first
matching entry of the indicator table in table order, default `O(n)`. -/
def estimate_time_complexity_regex (code : String) : String :=
  match time_complexity_indicators.find? (fun ci => ci.2.any (fun p => re_search_ci p code)) with
  | some ci => ci.1
  | none => "O(n)"

/-- Embedding of `_estimate_space_complexity_regex`, default `O(1)`. -/
def estimate_space_complexity_regex (code : String) : String :=
  match space_complexity_indicators.find? (fun ci => ci.2.any (fun p => re_search_ci p code)) with
  | some ci => ci.1
  | none => "O(1)"

/-- Embedding of `_detect_code_issues`: long functions (in walk order),
then deep `if` nesting, then the lone-lower-case-letter check. -/
def detect_code_issues (code : String) (tree : PyTree) : List String :=
  let funcIssues := (walk_bfs tree).filterMap (fun k =>
    match k with
    | .functionDef name srcLines =>
      if srcLines > 50 then
        some ("Function \x27" ++ name ++ "\x27 is too long (" ++ toString srcLines ++ " lines)")
      else none
    | _ => none)
  let nestingIssues :=
    if if_nesting tree > 4 then
      ["Deep nesting detected (level " ++ toString (if_nesting tree) ++ ")"]
    else []
  let namingIssues :=
    if has_single_letter_name code then ["Single letter variable names detected"] else []
  funcIssues ++ nestingIssues ++ namingIssues

/-- Embedding of `_generate_suggestions`, evaluated on the analysis state
after issues were recorded. -/
def generate_suggestions (analysis : Analysis) : List String :=
  (if analysis.time_complexity = "O(n^2)" then
    ["Consider optimizing to O(n log n) using sorting or O(n) using hash table"]
  else [])
  ++ (if "brute_force" ∈ analysis.patterns then
    ["Consider using dynamic programming or greedy approach"]
  else [])
  ++ (if "array" ∈ analysis.data_structures ∧ "lookup" ∈ analysis.patterns then
    ["Consider using hash table for O(1) lookups"]
  else [])

/-- Penalty table of `_calculate_complexity_score`
(`time_penalties.get(tc, 20)`). -/
def time_penalty (tc : String) : Int :=
  if tc = "O(1)" then 0
  else if tc = "O(log n)" then 0
  else if tc = "O(n)" then 5
  else if tc = "O(n log n)" then 15
  else if tc = "O(n^2)" then 30
  else if tc = "O(2^n)" then 50
  else 20

/-- Embedding of `_calculate_complexity_score`: start from 100, subtract
the complexity-class penalty, the capped cyclomatic penalty and 5 per
issue, and clamp below at 0. -/
def calculate_complexity_score (analysis : Analysis) : Int :=
  let score : Int := 100 - time_penalty analysis.time_complexity
  let cyclomatic : Int := (analysis.metrics.cyclomatic_complexity.getD 0 : Nat)
  let score := if cyclomatic > 10 then score - min 30 ((cyclomatic - 10) * 3) else score
  let score := score - 5 * (analysis.issues.length : Int)
  max 0 score

/-- Embedding of `_calculate_quality_score`: 100, minus 10 per issue, plus
5 per detected pattern and 3 per detected algorithm, clamped to
`[0, 100]`. -/
def calculate_quality_score (analysis : Analysis) : Int :=
  let score : Int := 100 - 10 * (analysis.issues.length : Int)
    + 5 * (analysis.patterns.length : Int) + 3 * (analysis.algorithms.length : Int)
  min 100 (max 0 score)

/-- Embedding of `_analyze_generic_code` (fallback, no syntax tree). -/
def analyze_generic_code (code : String) (analysis : Analysis) : Analysis :=
  let analysis := { analysis with
    metrics := { analysis.metrics with
      lines_of_code := some (split_lines (strip code.data)).length } }
  let analysis := { analysis with
    patterns := detect_patterns code,
    algorithms := detect_algorithms code,
    data_structures := detect_data_structures code }
  { analysis with
    time_complexity := estimate_time_complexity_regex code,
    space_complexity := estimate_space_complexity_regex code }

/-- Embedding of `_analyze_python_code`.  A successful parse runs the
structural path; a `SyntaxError` appends the error as an issue and falls
back to `_analyze_generic_code`. -/
def analyze_python_code (code : String) (parse_result : Except String PyTree)
    (analysis : Analysis) : Analysis :=
  match parse_result with
  | .ok tree =>
    let analysis := { analysis with
      metrics := { analysis.metrics with
        lines_of_code := some (split_lines (strip code.data)).length,
        functions := some ((walk_bfs tree).countP is_function_def),
        loops := some ((walk_bfs tree).countP is_loop_node),
        conditionals := some ((walk_bfs tree).countP is_if_node),
        cyclomatic_complexity := some (calculate_cyclomatic_complexity tree) } }
    let analysis := { analysis with
      patterns := detect_patterns code,
      algorithms := detect_algorithms code,
      data_structures := detect_data_structures code }
    let analysis := { analysis with
      time_complexity := estimate_time_complexity code tree,
      space_complexity := estimate_space_complexity code tree }
    let analysis := { analysis with issues := detect_code_issues code tree }
    { analysis with suggestions := generate_suggestions analysis }
  | .error err =>
    analyze_generic_code code { analysis with issues := analysis.issues ++ ["Syntax error: " ++ err] }

/-- Initial analysis dictionary of `analyze_code`. -/
def init_analysis (language : String) : Analysis :=
  { language := language, complexity_score := 0, quality_score := 0,
    patterns := [], algorithms := [], data_structures := [],
    time_complexity := "Unknown", space_complexity := "Unknown",
    metrics := {}, issues := [], suggestions := [] }

/-- Embedding of `CodeAnalyzer.analyze_code`: dispatch on the language
tag, then compute both scores from the resulting analysis.  The parse
outcome for the Python path is passed explicitly (the `ast` module is
external to the model). -/
def analyze_code (code : String) (language : String)
    (parse_result : Except String PyTree) : Analysis :=
  let analysis := init_analysis language
  let analysis :=
    if py_lower language = "python" then analyze_python_code code parse_result analysis
    else analyze_generic_code code analysis
  { analysis with
    complexity_score := calculate_complexity_score analysis,
    quality_score := calculate_quality_score analysis }

/-! ## Concept Graph Recommendation Engine -/

/-- One node of the knowledge graph of
`RecommendationEngine._build_knowledge_graph`. -/
structure ConceptInfo where
  prerequisites : List String
  leads_to : List String
  difficulty : String
  importance : ℚ
deriving DecidableEq

/-- The knowledge graph, transcribed from
`_build_knowledge_graph`: categories in dictionary order, concepts in
dictionary order within each category. -/
def knowledge_graph : List (String × List (String × ConceptInfo)) := [
  ("data_structures", [
    ("array", ⟨[], ["dynamic_programming", "two_pointers", "sliding_window"], "beginner", mkRat 9 10⟩),
    ("linked_list", ⟨["array"], ["stack", "queue", "tree"], "beginner", mkRat 8 10⟩),
    ("stack", ⟨["linked_list"], ["recursion", "backtracking"], "intermediate", mkRat 7 10⟩),
    ("queue", ⟨["linked_list"], ["bfs", "tree_traversal"], "intermediate", mkRat 7 10⟩),
    ("hash_table", ⟨["array"], ["two_sum", "caching", "memoization"], "intermediate", mkRat 9 10⟩),
    ("heap", ⟨["array", "tree"], ["priority_queue", "dijkstra", "kth_element"], "advanced", mkRat 8 10⟩),
    ("tree", ⟨["linked_list", "recursion"], ["bst", "trie", "segment_tree"], "intermediate", mkRat 8 10⟩),
    ("graph", ⟨["tree", "queue"], ["dfs", "bfs", "shortest_path"], "advanced", mkRat 9 10⟩)]),
  ("algorithms", [
    ("two_pointers", ⟨["array"], ["sliding_window", "merge_intervals"], "intermediate", mkRat 8 10⟩),
    ("sliding_window", ⟨["two_pointers"], ["substring_problems", "optimization"], "intermediate", mkRat 8 10⟩),
    ("binary_search", ⟨["array", "recursion"], ["search_optimization", "divide_and_conquer"], "intermediate", mkRat 9 10⟩),
    ("dynamic_programming", ⟨["recursion", "memoization"], ["optimization_problems", "advanced_dp"], "advanced", mkRat 9 10⟩),
    ("greedy", ⟨["array", "sorting"], ["optimization", "graph_algorithms"], "intermediate", mkRat 7 10⟩),
    ("backtracking", ⟨["recursion", "dfs"], ["combinatorics", "constraint_satisfaction"], "advanced", mkRat 8 10⟩),
    ("dfs", ⟨["tree", "graph", "recursion"], ["backtracking", "topological_sort"], "intermediate", mkRat 8 10⟩),
    ("bfs", ⟨["tree", "graph", "queue"], ["shortest_path", "level_order"], "intermediate", mkRat 8 10⟩)]),
  ("patterns", [
    ("recursion", ⟨["function_basics"], ["tree_problems", "dynamic_programming"], "intermediate", mkRat 9 10⟩),
    ("memoization", ⟨["recursion", "hash_table"], ["dynamic_programming", "optimization"], "intermediate", mkRat 8 10⟩)])]

/-- First category of a category list that contains the concept (helper
for `find_concept_in_graph`). -/
def first_lookup (concept : String) : List (List (String × ConceptInfo)) → Option ConceptInfo
  | [] => none
  | cat :: rest =>
    match cat.lookup concept with
    | some info => some info
    | none => first_lookup concept rest

/-- Embedding of `_find_concept_in_graph`: scan the categories in
dictionary order and return the first hit, `none` otherwise. -/
def find_concept_in_graph (concept : String) : Option ConceptInfo :=
  first_lookup concept (knowledge_graph.map (·.2))

/-- A knowledge gap (`KnowledgeGap` of the data model): derived,
recomputed per analysis. -/
structure KnowledgeGap where
  concept : String
  category : String
  severity : String
  reason : String
deriving DecidableEq

/-- One recommendation dictionary.  Keys that a given construction site
does not set are `none` (the Python dictionaries differ in their key
sets). -/
structure Recommendation where
  concept : String
  category : String
  difficulty : String
  estimated_time : Int
  priority : Option String := none
  prerequisites : Option (List String) := none
  leads_to : Option (List String) := none
  reason : Option String := none
deriving DecidableEq

/-- The fixed fundamental-concept list of gap identification. -/
def fundamental_concepts : List String := ["array", "linked_list", "hash_table", "recursion"]

/-- Detected concepts of an analysis:
`set(data_structures + algorithms)`, used through membership only. -/
def analysis_concepts (analysis : Analysis) : List String :=
  analysis.data_structures ++ analysis.algorithms

/-- Embedding of `_identify_knowledge_gaps`.  The submission history
enters only through `recent_patterns`, the pattern tags of the learner's
recent submissions (the external Submission Store supplies them; the
collected recent algorithms are dead code in the source and play no
part).  The three rules run in order and each appends at most one gap per
concept. -/
def identify_knowledge_gaps (recent_patterns : List String) (analysis : Analysis) :
    List KnowledgeGap :=
  (fundamental_concepts.filterMap (fun concept =>
    if concept ∉ analysis_concepts analysis ∧ concept ∉ recent_patterns then
      some { concept := concept, category := "fundamental", severity := "high",
             reason := "Missing fundamental concept: " ++ concept }
    else none))
  ++ (if analysis.time_complexity = "O(n^2)" ∨ analysis.time_complexity = "O(2^n)" then
      [{ concept := "algorithmic_optimization", category := "performance", severity := "medium",
         reason := "Code has suboptimal time complexity" }]
    else [])
  ++ (if "array" ∈ analysis.data_structures ∧ "two_pointers" ∉ analysis.patterns then
      [{ concept := "two_pointers", category := "pattern", severity := "medium",
         reason := "Array problems can often be optimized with two pointers technique" }]
    else [])

/-- Embedding of `_identify_anonymous_knowledge_gaps`: the same rules
without the recent-history filter. -/
def identify_anonymous_knowledge_gaps (analysis : Analysis) : List KnowledgeGap :=
  (fundamental_concepts.filterMap (fun concept =>
    if concept ∉ analysis_concepts analysis then
      some { concept := concept, category := "fundamental", severity := "high",
             reason := "Missing fundamental concept: " ++ concept }
    else none))
  ++ (if analysis.time_complexity = "O(n^2)" ∨ analysis.time_complexity = "O(2^n)" then
      [{ concept := "algorithmic_optimization", category := "performance", severity := "medium",
         reason := "Code has suboptimal time complexity" }]
    else [])
  ++ (if "array" ∈ analysis.data_structures ∧ "two_pointers" ∉ analysis.patterns then
      [{ concept := "two_pointers", category := "pattern", severity := "medium",
         reason := "Array problems can often be optimized with two pointers technique" }]
    else [])

/-- Embedding of `_check_prerequisites`.  `user_concepts` is the concept
set extracted from the learner's stored submissions (pattern tags plus
identified algorithms); the database itself is external, so the derived
set is the argument. -/
def check_prerequisites (user_concepts : List String) (prerequisites : List String) : Bool :=
  if prerequisites.isEmpty then true
  else prerequisites.all (fun p => decide (p ∈ user_concepts))

/-- Embedding of `_calculate_priority`. -/
def calculate_priority (gap : KnowledgeGap) (info : ConceptInfo) : String :=
  if gap.severity = "high" ∧ info.importance > mkRat 8 10 then "high"
  else if gap.severity = "high" ∨ info.importance > mkRat 7 10 then "medium"
  else "low"

def base_learning_times : List (String × Int) := [
  ("array", 60), ("linked_list", 90), ("hash_table", 120), ("recursion", 180),
  ("dynamic_programming", 300), ("two_pointers", 90), ("binary_search", 120)]

def skill_multipliers : List (String × ℚ) := [
  ("beginner", mkRat 15 10), ("intermediate", 1), ("advanced", mkRat 7 10)]

/-- Embedding of `_estimate_learning_time`:
`int(base_time * multiplier)`.  The source computes in binary floating
point, where truncation can differ by one minute for the 0.7 multiplier
(for example `int(90 * 0.7) = 62`); the claims verified below never
evaluate that multiplier, and for the exact multipliers 1.5 and 1.0 the
rational floor agrees with the source. -/
def estimate_learning_time (concept : String) (skill_level : String) : Int :=
  let base := (base_learning_times.lookup concept).getD 120
  let multiplier := (skill_multipliers.lookup skill_level).getD 1
  ⌊(base : ℚ) * multiplier⌋

/-- Recommendations appended for one gap by the loop of
`_recommend_concepts`: the gap's own concept when its prerequisites are
all in `user_concepts`, otherwise one `high`-priority recommendation per
prerequisite that is itself found in the graph; a concept absent from the
graph contributes nothing. -/
def recommendations_for_gap (user_concepts : List String) (skill_level : String)
    (gap : KnowledgeGap) : List Recommendation :=
  match find_concept_in_graph gap.concept with
  | none => []
  | some info =>
    if check_prerequisites user_concepts info.prerequisites then
      [{ concept := gap.concept, category := gap.category,
         priority := some (calculate_priority gap info),
         difficulty := info.difficulty,
         estimated_time := estimate_learning_time gap.concept skill_level,
         prerequisites := some info.prerequisites,
         leads_to := some info.leads_to }]
    else
      info.prerequisites.filterMap (fun prereq =>
        (find_concept_in_graph prereq).map (fun prereq_info =>
          { concept := prereq, category := "prerequisite",
            priority := some "high",
            difficulty := prereq_info.difficulty,
            estimated_time := estimate_learning_time prereq skill_level,
            reason := some ("Prerequisite for " ++ gap.concept) }))

/-- Sort key of the final `recommendations.sort`:
`{'high': 3, 'medium': 2, 'low': 1}.get(x.get('priority', 'low'), 1)`. -/
def priority_rank (r : Recommendation) : Int :=
  let p := r.priority.getD "low"
  if p = "high" then 3 else if p = "medium" then 2 else if p = "low" then 1 else 1

/-- Stable insertion of `x` in front of the first element whose key is not
larger (helper for the stable descending sort). -/
def insert_desc {α : Type} (key : α → Int) (x : α) : List α → List α
  | [] => [x]
  | y :: ys => if key y ≤ key x then x :: y :: ys else y :: insert_desc key x ys

/-- Stable descending sort by an integer key, modelling Python
`list.sort(key=..., reverse=True)` (Python's sort is stable and
`reverse=True` preserves the relative order of equal keys). -/
def stable_sort_desc {α : Type} (key : α → Int) : List α → List α
  | [] => []
  | x :: xs => insert_desc key x (stable_sort_desc key xs)

/-- Embedding of `_recommend_concepts`: emit recommendations per gap in
gap order, stable-sort by priority descending, truncate to the top 5. -/
def recommend_concepts (user_concepts : List String) (skill_level : String)
    (knowledge_gaps : List KnowledgeGap) : List Recommendation :=
  (stable_sort_desc priority_rank
    (knowledge_gaps.flatMap (recommendations_for_gap user_concepts skill_level))).take 5

/-- Embedding of `_recommend_anonymous_concepts`: one recommendation per
gap whose concept is found in the graph (no prerequisite handling, no
priority, no sort), truncated to 5, with learning time estimated at the
`beginner` level. -/
def recommend_anonymous_concepts (knowledge_gaps : List KnowledgeGap) : List Recommendation :=
  (knowledge_gaps.filterMap (fun gap =>
    (find_concept_in_graph gap.concept).map (fun info =>
      { concept := gap.concept, category := gap.category,
        difficulty := info.difficulty,
        estimated_time := estimate_learning_time gap.concept "beginner" }))).take 5

/-! ## Progress Trend Analytics -/

/-- One stored submission as the tracker reads it.  `week_key` carries
`submitted_at.strftime("%Y-W%U")`, a rendering of the timestamp that only
the external datetime library computes; the timestamp itself is an
abstract instant (`Nat`).  The two scores are `Option` because the
database columns are nullable (`s.quality_score or 0`). -/
structure TrackedSubmission where
  submitted_at : Nat
  week_key : String
  quality_score : Option ℚ := none
  complexity_score : Option ℚ := none
deriving DecidableEq

/-- Python `value or 0` on a nullable score. -/
def or_zero (q : Option ℚ) : ℚ := q.getD 0

/-- Insert a submission into the week-keyed group list, preserving
first-seen key order (Python `defaultdict` iteration order). -/
def add_to_week : List (String × List TrackedSubmission) → TrackedSubmission →
    List (String × List TrackedSubmission)
  | [], s => [(s.week_key, [s])]
  | (k, g) :: rest, s =>
    if k = s.week_key then (k, g ++ [s]) :: rest else (k, g) :: add_to_week rest s

/-- Embedding of the `submissions_by_week` grouping of
`_track_skill_progression`. -/
def group_by_week (subs : List TrackedSubmission) : List (String × List TrackedSubmission) :=
  subs.foldl add_to_week []

/-- Arithmetic mean (`np.mean`) of a rational list; the tracker only
applies it to non-empty groups. -/
def list_mean (l : List ℚ) : ℚ := l.sum / l.length

/-- Maximum of a rational list, 0 on the empty list (the tracker guards
every use by non-emptiness). -/
def list_max : List ℚ → ℚ
  | [] => 0
  | [x] => x
  | x :: y :: rest => max x (list_max (y :: rest))

/-- Weekly combined scores of `_track_skill_progression`:
`(mean quality + mean complexity) / 2` per week bucket, in first-seen week
order. -/
def weekly_scores (subs : List TrackedSubmission) : List ℚ :=
  (group_by_week subs).map (fun wk =>
    (list_mean (wk.2.map (fun s => or_zero s.quality_score))
      + list_mean (wk.2.map (fun s => or_zero s.complexity_score))) / 2)

/-- Ordinary-least-squares slope of the regression of `values` on the
index sequence `0, 1, ...`, in exact rational arithmetic — the
coefficient `sklearn.linear_model.LinearRegression` fits in
`_track_skill_progression`. -/
def ols_slope (values : List ℚ) : ℚ :=
  let n : ℚ := values.length
  let xs : List ℚ := (List.range values.length).map (fun i => (i : ℚ))
  let sx := xs.sum
  let sy := values.sum
  let sxy := ((List.zip xs values).map (fun p => p.1 * p.2)).sum
  let sxx := (xs.map (fun x => x * x)).sum
  (n * sxy - sx * sy) / (n * sxx - sx * sx)

/-- Trend classification of `_track_skill_progression`:
`slope > 0.1 → improving`, `slope < -0.1 → declining`, else `stable`. -/
def classify_slope (slope : ℚ) : String :=
  if slope > mkRat 1 10 then "improving" else if slope < mkRat (-1) 10 then "declining" else "stable"

/-- Result dictionary of `_track_skill_progression`.  The early return
for fewer than two submissions carries only the `trend` key, so every
other field is an `Option`.  The `consistency` key of the source calls
`np.std`, a floating-point square root outside the rational model; no
verified claim refers to it and it is not carried here.  The percentage
is kept unrounded (`round(x, 2)` is display formatting). -/
structure SkillProgression where
  trend : String
  improvement_rate_percentage : Option ℚ := none
  weekly_average_scores : Option (List ℚ) := none
  current_score : Option ℚ := none
  best_score : Option ℚ := none
deriving DecidableEq

/-- Embedding of `_track_skill_progression`. -/
def track_skill_progression (subs : List TrackedSubmission) : SkillProgression :=
  if subs.length < 2 then { trend := "insufficient_data" }
  else
    let ws := weekly_scores subs
    let classified : String × ℚ :=
      if ws.length ≥ 2 then
        let slope := ols_slope ws
        (classify_slope slope,
         if ws.headD 0 > 0 then ((ws.getLastD 0 - ws.headD 0) / ws.headD 0) * 100 else 0)
      else ("insufficient_data", 0)
    { trend := classified.1,
      improvement_rate_percentage := some classified.2,
      weekly_average_scores := some ws,
      current_score := some (if ws.isEmpty then 0 else ws.getLastD 0),
      best_score := some (if ws.isEmpty then 0 else list_max ws) }

/-- One entry of `milestones['milestones_achieved']`.  The two families of
milestones set different key sets: submission-count entries carry
`celebration_worthy`, score entries carry `score` (itself nullable, the
raw column value). -/
structure MilestoneRecord where
  id : String
  description : String
  achieved_date : Nat
  celebration_worthy : Option Bool := none
  score : Option (Option ℚ) := none
deriving DecidableEq

/-- Result dictionary of `_track_milestones`. -/
structure MilestoneProgress where
  first_submission : Option Nat
  submissions_count : Nat
  milestones_achieved : List MilestoneRecord
deriving DecidableEq

/-- The submission-count milestone table `(count, id, description)`. -/
def submission_milestone_criteria : List (Nat × String × String) := [
  (10, "10_submissions", "Completed 10 coding problems"),
  (25, "25_submissions", "Completed 25 coding problems"),
  (50, "50_submissions", "Completed 50 coding problems"),
  (100, "100_submissions", "Completed 100 coding problems")]

/-- The peak-quality-score milestone table `(threshold, id, description)`. -/
def score_milestone_criteria : List (ℚ × String × String) := [
  (60, "first_good_score", "Achieved first quality score above 60"),
  (80, "first_great_score", "Achieved first quality score above 80"),
  (90, "excellence", "Achieved excellence with score above 90")]

/-- Submission-count milestones: for each satisfied threshold `count`, one
entry dated at submission `count - 1` (the triggering submission). -/
def count_milestones (subs : List TrackedSubmission) : List MilestoneRecord :=
  submission_milestone_criteria.filterMap (fun c =>
    if subs.length ≥ c.1 then
      (subs[c.1 - 1]?).map (fun s =>
        { id := c.2.1, description := c.2.2, achieved_date := s.submitted_at,
          celebration_worthy := some true })
    else none)

/-- Score milestones: when the peak quality score reaches a threshold, one
entry dated at the chronologically first submission reaching it. -/
def score_milestones (subs : List TrackedSubmission) : List MilestoneRecord :=
  let quality_scores := subs.map (fun s => or_zero s.quality_score)
  if quality_scores.isEmpty then []
  else
    let max_score := list_max quality_scores
    score_milestone_criteria.filterMap (fun c =>
      if max_score ≥ c.1 then
        (subs.find? (fun s => decide (or_zero s.quality_score ≥ c.1))).map (fun s =>
          { id := c.2.1, description := c.2.2, achieved_date := s.submitted_at,
            score := some s.quality_score })
      else none)

/-- Embedding of `_track_milestones`: submission-count milestones followed
by score milestones, plus the header fields. -/
def track_milestones (subs : List TrackedSubmission) : MilestoneProgress :=
  { first_submission := subs.head?.map (·.submitted_at),
    submissions_count := subs.length,
    milestones_achieved := count_milestones subs ++ score_milestones subs }

/-! ## Theorems: static code analyzer claims -/

theorem time_penalty_nonneg (tc : String) : 0 ≤ time_penalty tc := by
  unfold time_penalty
  split_ifs <;> norm_num

theorem calculate_complexity_score_bounds (analysis : Analysis) :
    0 ≤ calculate_complexity_score analysis ∧ calculate_complexity_score analysis ≤ 100 := by
  have h := time_penalty_nonneg analysis.time_complexity
  simp only [calculate_complexity_score]
  split_ifs <;> omega

theorem calculate_quality_score_bounds (analysis : Analysis) :
    0 ≤ calculate_quality_score analysis ∧ calculate_quality_score analysis ≤ 100 := by
  simp only [calculate_quality_score]
  omega

/-- C2: for every `(source_text, language)` input (and every parse
outcome), the complexity and quality scores of the returned analysis lie
in `[0, 100]`. -/
theorem analyze_code_scores_bounded (code language : String)
    (parse_result : Except String PyTree) :
    0 ≤ (analyze_code code language parse_result).complexity_score ∧
    (analyze_code code language parse_result).complexity_score ≤ 100 ∧
    0 ≤ (analyze_code code language parse_result).quality_score ∧
    (analyze_code code language parse_result).quality_score ≤ 100 := by
  unfold analyze_code
  exact ⟨(calculate_complexity_score_bounds _).1, (calculate_complexity_score_bounds _).2,
    (calculate_quality_score_bounds _).1, (calculate_quality_score_bounds _).2⟩

/-- C1: `analyze_code` is a total function into complete `Analysis`
records (the embedding never raises), it preserves the language tag, and
when structural parsing of Python source fails it falls back to the
text-signature-only path of `_analyze_generic_code`, recording the parse
failure as the single `issues` entry. -/
theorem analyze_code_total_and_fallback (code language msg : String)
    (hlang : py_lower language = "python") :
    (∀ (language2 : String) (parse_result : Except String PyTree),
      (analyze_code code language2 parse_result).language = language2) ∧
    (analyze_code code language (Except.error msg)).issues = ["Syntax error: " ++ msg] ∧
    analyze_code code language (Except.error msg) =
      (let fallback := analyze_generic_code code
        { init_analysis language with issues := ["Syntax error: " ++ msg] }
      { fallback with
        complexity_score := calculate_complexity_score fallback,
        quality_score := calculate_quality_score fallback }) := by
  refine ⟨?_, ?_, ?_⟩
  · intro language2 parse_result
    cases parse_result <;>
      simp [analyze_code, analyze_python_code, analyze_generic_code, init_analysis] <;>
      split <;>
      simp [analyze_python_code, analyze_generic_code, init_analysis]
  · simp [analyze_code, analyze_python_code, analyze_generic_code, init_analysis, hlang]
  · simp [analyze_code, analyze_python_code, analyze_generic_code, init_analysis, hlang]

/-- Witness for C1 at a concrete unparsable input. -/
theorem analyze_code_total_and_fallback_witness :
    (analyze_code "def f(" "python" (Except.error "invalid syntax")).issues
      = ["Syntax error: " ++ "invalid syntax"] :=
  (analyze_code_total_and_fallback "def f(" "python" "invalid syntax" (by decide)).2.1

theorem walk_bfs_nil : walk_bfs PyTree.nil = [] := by
  simp [walk_bfs]

/-- Sanity check of the embedding: a dictionary-based single pass is
detected as `hash_table` via the `dict(` signature. -/
theorem detect_dict_pass_eval :
    detect_data_structures "counts = dict()\nfor x in arr:\n    counts[x] = counts.get(x, 0) + 1"
      = ["hash_table"] := by
  decide

/-- Sanity check of the embedding: two nested `for` loops give the
`O(n^2)` classification on the structural path. -/
theorem nested_loop_time_eval :
    estimate_time_complexity
      "for i in range(n):\n    for j in range(n):\n        total = total + 1"
      (.node .forStmt (.node .forStmt (.node .otherNode .nil .nil) .nil) .nil)
      = "O(n^2)" := by
  decide

/-- Evaluation of the analyzer on empty source under the Python path:
`ast.parse("")` succeeds with an empty module, modelled by
`Except.ok PyTree.nil`. -/
theorem analyze_code_empty_eval :
    analyze_code "" "python" (Except.ok PyTree.nil) =
      { language := "python", complexity_score := 100, quality_score := 100,
        patterns := [], algorithms := [], data_structures := [],
        time_complexity := "O(1)", space_complexity := "O(1)",
        metrics := { lines_of_code := some 1, functions := some 0, loops := some 0,
                     conditionals := some 0, cyclomatic_complexity := some 1 },
        issues := [], suggestions := [] } := by
  simp only [analyze_code, analyze_python_code, init_analysis,
    calculate_cyclomatic_complexity, estimate_space_complexity, detect_code_issues,
    walk_bfs_nil]
  decide

/-- C9 counterexample: for empty source text the analyzer reports
`lines_of_code = 1`, because Python splits the stripped empty string into
one (empty) line — the claim that all counts are 0 fails on this count. -/
theorem empty_source_lines_counterexample :
    (analyze_code "" "python" (Except.ok PyTree.nil)).metrics.lines_of_code = some 1 ∧
    (analyze_code "" "python" (Except.ok PyTree.nil)).metrics.lines_of_code ≠ some 0 := by
  rw [analyze_code_empty_eval]
  decide

/-- C9 amended: for empty source text under the Python path (the parse of
the empty string is the empty module) the function, loop and conditional
counts are 0, `lines_of_code` is 1, cyclomatic complexity is its base
value 1, both complexities are `O(1)`, no patterns, algorithms, data
structures or issues are detected, and both scores take the maximal
default 100. -/
theorem empty_source_analysis_amended :
    (analyze_code "" "python" (Except.ok PyTree.nil)).metrics =
      { lines_of_code := some 1, functions := some 0, loops := some 0,
        conditionals := some 0, cyclomatic_complexity := some 1 } ∧
    (analyze_code "" "python" (Except.ok PyTree.nil)).time_complexity = "O(1)" ∧
    (analyze_code "" "python" (Except.ok PyTree.nil)).space_complexity = "O(1)" ∧
    (analyze_code "" "python" (Except.ok PyTree.nil)).patterns = [] ∧
    (analyze_code "" "python" (Except.ok PyTree.nil)).algorithms = [] ∧
    (analyze_code "" "python" (Except.ok PyTree.nil)).data_structures = [] ∧
    (analyze_code "" "python" (Except.ok PyTree.nil)).issues = [] ∧
    (analyze_code "" "python" (Except.ok PyTree.nil)).complexity_score = 100 ∧
    (analyze_code "" "python" (Except.ok PyTree.nil)).quality_score = 100 := by
  rw [analyze_code_empty_eval]
  decide

/-! ## Theorems: recommendation engine claims -/

theorem fundamental_gap_concepts (P : String → Prop) [DecidablePred P] (l : List String) :
    ((l.filterMap (fun concept =>
        if P concept then
          some { concept := concept, category := "fundamental", severity := "high",
                 reason := "Missing fundamental concept: " ++ concept }
        else (none : Option KnowledgeGap))).map (·.concept))
      = l.filter (fun c => decide (P c)) := by
  induction l with
  | nil => simp
  | cons a as ih =>
    by_cases h : P a <;> simp [List.filterMap_cons, h, List.filter_cons, ih]

/-- C10: gap identification emits gaps in a fixed discovery order — the
fundamental gaps in the fixed order `array, linked_list, hash_table,
recursion` (each only when absent), then at most one performance gap for
`algorithmic_optimization`, then at most one pattern gap for
`two_pointers`; no concept is emitted twice, for the history-aware and
the anonymous variant alike. -/
theorem gap_emission_order (recent_patterns : List String) (analysis : Analysis) :
    ((identify_knowledge_gaps recent_patterns analysis).map (·.concept)
      = fundamental_concepts.filter
          (fun c => decide (c ∉ analysis_concepts analysis ∧ c ∉ recent_patterns))
        ++ (if analysis.time_complexity = "O(n^2)" ∨ analysis.time_complexity = "O(2^n)"
            then ["algorithmic_optimization"] else [])
        ++ (if "array" ∈ analysis.data_structures ∧ "two_pointers" ∉ analysis.patterns
            then ["two_pointers"] else []))
    ∧ ((identify_anonymous_knowledge_gaps analysis).map (·.concept)
      = fundamental_concepts.filter (fun c => decide (c ∉ analysis_concepts analysis))
        ++ (if analysis.time_complexity = "O(n^2)" ∨ analysis.time_complexity = "O(2^n)"
            then ["algorithmic_optimization"] else [])
        ++ (if "array" ∈ analysis.data_structures ∧ "two_pointers" ∉ analysis.patterns
            then ["two_pointers"] else []))
    ∧ ((identify_knowledge_gaps recent_patterns analysis).map (·.concept)).Nodup
    ∧ ((identify_anonymous_knowledge_gaps analysis).map (·.concept)).Nodup := by
  have h1 : (identify_knowledge_gaps recent_patterns analysis).map (·.concept)
      = fundamental_concepts.filter
          (fun c => decide (c ∉ analysis_concepts analysis ∧ c ∉ recent_patterns))
        ++ (if analysis.time_complexity = "O(n^2)" ∨ analysis.time_complexity = "O(2^n)"
            then ["algorithmic_optimization"] else [])
        ++ (if "array" ∈ analysis.data_structures ∧ "two_pointers" ∉ analysis.patterns
            then ["two_pointers"] else []) := by
    simp only [identify_knowledge_gaps, List.map_append,
      fundamental_gap_concepts (fun c => c ∉ analysis_concepts analysis ∧ c ∉ recent_patterns)]
    congr 1
    · congr 1
      split <;> simp
    · split <;> simp
  have h2 : (identify_anonymous_knowledge_gaps analysis).map (·.concept)
      = fundamental_concepts.filter (fun c => decide (c ∉ analysis_concepts analysis))
        ++ (if analysis.time_complexity = "O(n^2)" ∨ analysis.time_complexity = "O(2^n)"
            then ["algorithmic_optimization"] else [])
        ++ (if "array" ∈ analysis.data_structures ∧ "two_pointers" ∉ analysis.patterns
            then ["two_pointers"] else []) := by
    simp only [identify_anonymous_knowledge_gaps, List.map_append,
      fundamental_gap_concepts (fun c => c ∉ analysis_concepts analysis)]
    congr 1
    · congr 1
      split <;> simp
    · split <;> simp
  have nodup : ∀ P : String → Bool,
      (fundamental_concepts.filter P
        ++ (if analysis.time_complexity = "O(n^2)" ∨ analysis.time_complexity = "O(2^n)"
            then ["algorithmic_optimization"] else [])
        ++ (if "array" ∈ analysis.data_structures ∧ "two_pointers" ∉ analysis.patterns
            then ["two_pointers"] else [])).Nodup := by
    intro P
    have hfund : ∀ a ∈ fundamental_concepts.filter P, a ∈ fundamental_concepts :=
      fun a ha => List.mem_of_mem_filter ha
    have hfil : (fundamental_concepts.filter P).Nodup :=
      List.Nodup.filter P (by decide)
    rw [List.append_assoc, List.nodup_append]
    refine ⟨hfil, ?_, ?_⟩
    · split <;> split <;> simp_all [fundamental_concepts]
    · intro a ha hb
      have := hfund a ha
      fin_cases this <;> revert hb <;> split <;> split <;> simp_all
  exact ⟨h1, h2, h1 ▸ nodup _, h2 ▸ nodup _⟩

/-- C6 amended: the anonymous path shares gap identification with the
general path (it equals the general rule set evaluated with an empty
recent-history window), but its concept-recommendation step is the
simplified `recommend_anonymous_concepts`, not the general algorithm with
an empty mastered set — see the counterexample for the difference. -/
theorem anonymous_gap_identification_amended (analysis : Analysis) :
    identify_anonymous_knowledge_gaps analysis = identify_knowledge_gaps [] analysis := by
  simp [identify_anonymous_knowledge_gaps, identify_knowledge_gaps]

/-- C6 counterexample: on an analysis with no detected concepts, the
anonymous recommendation step recommends the four fundamental concepts
themselves, while the general algorithm with an empty mastered set and
`beginner` skill recommends `array` three times (prerequisite
substitution); the two results differ. -/
theorem anonymous_vs_general_counterexample :
    ((recommend_anonymous_concepts
        (identify_anonymous_knowledge_gaps (init_analysis "python"))).map (·.concept)
      = ["array", "linked_list", "hash_table", "recursion"]) ∧
    ((recommend_concepts [] "beginner"
        (identify_knowledge_gaps [] (init_analysis "python"))).map (·.concept)
      = ["array", "array", "array"]) ∧
    ((recommend_anonymous_concepts
        (identify_anonymous_knowledge_gaps (init_analysis "python"))).map (·.concept)
      ≠ (recommend_concepts [] "beginner"
          (identify_knowledge_gaps [] (init_analysis "python"))).map (·.concept)) := by
  refine ⟨?_, ?_, ?_⟩ <;> decide

theorem lookup_mem {β : Type} (c : String) (info : β) :
    ∀ l : List (String × β), l.lookup c = some info → (c, info) ∈ l := by
  intro l
  induction l with
  | nil => intro h; simp [List.lookup] at h
  | cons p rest ih =>
    obtain ⟨k, b⟩ := p
    intro h
    simp only [List.lookup] at h
    split at h
    · next heq =>
      cases h
      exact (eq_of_beq heq) ▸ List.mem_cons_self _ _
    · next heq =>
      exact List.mem_cons_of_mem _ (ih h)

theorem first_lookup_mem (concept : String) (info : ConceptInfo) :
    ∀ cats : List (List (String × ConceptInfo)),
      first_lookup concept cats = some info → ∃ cat ∈ cats, (concept, info) ∈ cat := by
  intro cats
  induction cats with
  | nil => intro h; simp [first_lookup] at h
  | cons cat rest ih =>
    intro h
    simp only [first_lookup] at h
    split at h
    · next i heq =>
      cases h
      exact ⟨cat, List.mem_cons_self _ _, lookup_mem _ _ _ heq⟩
    · obtain ⟨cat2, hc2, hm2⟩ := ih h
      exact ⟨cat2, List.mem_cons_of_mem _ hc2, hm2⟩

/-- No concept of the knowledge graph lists itself among its own
prerequisites. -/
theorem graph_no_self_prereq (concept : String) (info : ConceptInfo)
    (h : find_concept_in_graph concept = some info) : concept ∉ info.prerequisites := by
  obtain ⟨cat, hcat, hmem⟩ := first_lookup_mem _ _ _ h
  simp only [knowledge_graph, List.map_cons, List.map_nil] at hcat
  fin_cases hcat <;> fin_cases hmem <;> decide

/-- C3 counterexample: the gap concept `recursion` is found in the graph
and its only prerequisite `function_basics` is not among the (empty)
mastered concepts, yet the produced recommendation list is empty: no
high-priority recommendation for the prerequisite appears, because
`function_basics` has no node in the graph. -/
theorem prereq_recommendation_missing_counterexample :
    ((find_concept_in_graph "recursion").map (·.prerequisites) = some ["function_basics"]) ∧
    recommend_concepts [] "beginner"
        [{ concept := "recursion", category := "fundamental", severity := "high",
           reason := "Missing fundamental concept: recursion" }] = [] := by
  refine ⟨?_, ?_⟩ <;> decide

/-- C3 amended: for a gap whose concept is found in the graph with
prerequisites not all mastered, the per-gap emission contains a
high-priority recommendation for every prerequisite that is itself found
in the graph (prerequisites absent from the graph are skipped), and emits
no recommendation for the gap's own concept; recommendations from other
gaps and the final top-5 truncation are outside this per-gap
guarantee. -/
theorem unmet_prereq_recommendations_amended (user_concepts : List String)
    (skill_level : String) (gap : KnowledgeGap) (info : ConceptInfo)
    (hfind : find_concept_in_graph gap.concept = some info)
    (hunmet : check_prerequisites user_concepts info.prerequisites = false) :
    (∀ p ∈ info.prerequisites, ∀ pinfo, find_concept_in_graph p = some pinfo →
        ∃ r ∈ recommendations_for_gap user_concepts skill_level gap,
          r.concept = p ∧ r.priority = some "high") ∧
    (∀ r ∈ recommendations_for_gap user_concepts skill_level gap,
        r.concept ≠ gap.concept) := by
  have hself := graph_no_self_prereq gap.concept info hfind
  constructor
  · intro p hp pinfo hpfind
    refine ⟨{ concept := p, category := "prerequisite", priority := some "high",
              difficulty := pinfo.difficulty,
              estimated_time := estimate_learning_time p skill_level,
              reason := some ("Prerequisite for " ++ gap.concept) }, ?_, rfl, rfl⟩
    simp only [recommendations_for_gap, hfind, hunmet, Bool.false_eq_true, if_false]
    exact List.mem_filterMap.mpr ⟨p, hp, by rw [hpfind]; rfl⟩
  · intro r hr
    simp only [recommendations_for_gap, hfind, hunmet, Bool.false_eq_true, if_false] at hr
    obtain ⟨p, hp, hfp⟩ := List.mem_filterMap.mp hr
    cases hpf : find_concept_in_graph p with
    | none => rw [hpf] at hfp; simp at hfp
    | some pinfo =>
      rw [hpf] at hfp
      simp only [Option.map_some', Option.some.injEq] at hfp
      subst hfp
      intro hpc
      apply hself
      have hpe : p = gap.concept := hpc
      exact hpe ▸ hp

/-- C4 counterexample: two gaps whose concepts (`linked_list` and
`hash_table`) both have the unmastered prerequisite `array` produce a
recommendation list in which the concept `array` appears twice — the
engine does not deduplicate by concept id. -/
theorem recommendation_duplicates_counterexample :
    ((recommend_concepts [] "beginner"
        [{ concept := "linked_list", category := "fundamental", severity := "high",
           reason := "Missing fundamental concept: linked_list" },
         { concept := "hash_table", category := "fundamental", severity := "high",
           reason := "Missing fundamental concept: hash_table" }]).map (·.concept)
      = ["array", "array"]) ∧
    ¬ ((recommend_concepts [] "beginner"
        [{ concept := "linked_list", category := "fundamental", severity := "high",
           reason := "Missing fundamental concept: linked_list" },
         { concept := "hash_table", category := "fundamental", severity := "high",
           reason := "Missing fundamental concept: hash_table" }]).map (·.concept)).Nodup := by
  refine ⟨?_, ?_⟩ <;> decide

theorem insert_desc_perm {α : Type} (key : α → Int) (x : α) (l : List α) :
    List.Perm (insert_desc key x l) (x :: l) := by
  induction l with
  | nil => simp [insert_desc]
  | cons y ys ih =>
    simp only [insert_desc]
    split
    · exact List.Perm.refl _
    · exact (ih.cons y).trans (List.Perm.swap x y ys)

theorem stable_sort_desc_perm {α : Type} (key : α → Int) (l : List α) :
    List.Perm (stable_sort_desc key l) l := by
  induction l with
  | nil => simp [stable_sort_desc]
  | cons x xs ih =>
    exact (insert_desc_perm key x (stable_sort_desc key xs)).trans (ih.cons x)

/-- C4 amended: the engine performs no deduplication: the returned list is
exactly the stable priority-descending sort of the per-gap emissions,
truncated to five entries, and sorting is a permutation (it preserves the
multiplicity of every recommendation), so a concept generated for several
gaps or prerequisites appears once per surviving emission. -/
theorem recommendation_no_dedup_amended (user_concepts : List String)
    (skill_level : String) (gaps : List KnowledgeGap) :
    recommend_concepts user_concepts skill_level gaps
      = (stable_sort_desc priority_rank
          (gaps.flatMap (recommendations_for_gap user_concepts skill_level))).take 5
    ∧ List.Perm
        (stable_sort_desc priority_rank
          (gaps.flatMap (recommendations_for_gap user_concepts skill_level)))
        (gaps.flatMap (recommendations_for_gap user_concepts skill_level)) :=
  ⟨rfl, stable_sort_desc_perm _ _⟩

/-- Witness for the amended C3: the gap `linked_list` with no mastered
concepts yields a high-priority recommendation for its graph-resident
prerequisite `array`, and no recommendation for `linked_list` itself. -/
theorem unmet_prereq_recommendations_amended_witness :
    (∃ r ∈ recommendations_for_gap [] "beginner"
        { concept := "linked_list", category := "fundamental", severity := "high",
          reason := "Missing fundamental concept: linked_list" },
      r.concept = "array" ∧ r.priority = some "high") ∧
    (∀ r ∈ recommendations_for_gap [] "beginner"
        { concept := "linked_list", category := "fundamental", severity := "high",
          reason := "Missing fundamental concept: linked_list" },
      r.concept ≠ "linked_list") := by
  have h := unmet_prereq_recommendations_amended [] "beginner"
    { concept := "linked_list", category := "fundamental", severity := "high",
      reason := "Missing fundamental concept: linked_list" }
    ⟨["array"], ["stack", "queue", "tree"], "beginner", mkRat 8 10⟩
    (by decide) (by decide)
  exact ⟨h.1 "array" (by decide)
    ⟨[], ["dynamic_programming", "two_pointers", "sliding_window"], "beginner", mkRat 9 10⟩
    (by decide), h.2⟩

theorem priority_rank_cases (r : Recommendation) :
    priority_rank r = 1 ∨ priority_rank r = 2 ∨ priority_rank r = 3 := by
  simp only [priority_rank]
  split_ifs <;> simp

theorem insert_desc_front {α : Type} (key : α → Int) (x : α) (l : List α)
    (h : ∀ y ∈ l, key y ≤ key x) : insert_desc key x l = x :: l := by
  cases l with
  | nil => simp [insert_desc]
  | cons y ys =>
    simp only [insert_desc]
    rw [if_pos (h y (List.mem_cons_self _ _))]

theorem insert_desc_skip {α : Type} (key : α → Int) (x : α) (l₁ l₂ : List α)
    (h : ∀ y ∈ l₁, key x < key y) :
    insert_desc key x (l₁ ++ l₂) = l₁ ++ insert_desc key x l₂ := by
  induction l₁ with
  | nil => simp
  | cons y ys ih =>
    simp only [List.cons_append, insert_desc, List.append_eq]
    rw [if_neg (by exact not_le.mpr (h y (List.mem_cons_self _ _)))]
    rw [ih (fun z hz => h z (List.mem_cons_of_mem _ hz))]

theorem mem_filter_key {α : Type} (key : α → Int) (v : Int) (l : List α) :
    ∀ y ∈ l.filter (fun r => decide (key r = v)), key y = v := by
  intro y hy
  have := List.of_mem_filter hy
  simpa using this

/-- A stable descending sort of a list whose keys lie in `{1, 2, 3}` is
the concatenation of the key-3, key-2 and key-1 sublists in their
original relative order. -/
theorem stable_sort_desc_eq_filters {α : Type} (key : α → Int) (l : List α)
    (hkeys : ∀ x ∈ l, key x = 1 ∨ key x = 2 ∨ key x = 3) :
    stable_sort_desc key l
      = l.filter (fun r => decide (key r = 3)) ++ l.filter (fun r => decide (key r = 2))
        ++ l.filter (fun r => decide (key r = 1)) := by
  induction l with
  | nil => simp [stable_sort_desc]
  | cons x xs ih =>
    have hx := hkeys x (List.mem_cons_self _ _)
    have hxs : ∀ y ∈ xs, key y = 1 ∨ key y = 2 ∨ key y = 3 :=
      fun y hy => hkeys y (List.mem_cons_of_mem _ hy)
    have h3 := mem_filter_key key 3 xs
    have h2 := mem_filter_key key 2 xs
    have h1 := mem_filter_key key 1 xs
    simp only [stable_sort_desc, ih hxs]
    set F3 := xs.filter (fun r => decide (key r = 3)) with hF3
    set F2 := xs.filter (fun r => decide (key r = 2)) with hF2
    set F1 := xs.filter (fun r => decide (key r = 1)) with hF1
    rcases hx with hx | hx | hx
    · -- key x = 1: skip the key-3 and key-2 blocks, then insert in front
      have hskip : insert_desc key x ((F3 ++ F2) ++ F1)
          = (F3 ++ F2) ++ insert_desc key x F1 :=
        insert_desc_skip key x (F3 ++ F2) F1 (fun y hy => by
          rcases List.mem_append.mp hy with hy | hy
          · rw [hx, h3 y hy]; norm_num
          · rw [hx, h2 y hy]; norm_num)
      have hfront : insert_desc key x F1 = x :: F1 :=
        insert_desc_front key x F1 (fun y hy => by rw [hx, h1 y hy])
      rw [hskip, hfront]
      simp [List.filter_cons, hx, hF3, hF2, hF1]
    · -- key x = 2: skip the key-3 block, insert in front of the key-2 block
      have hskip : insert_desc key x (F3 ++ (F2 ++ F1))
          = F3 ++ insert_desc key x (F2 ++ F1) :=
        insert_desc_skip key x F3 (F2 ++ F1) (fun y hy => by
          rw [hx, h3 y hy]; norm_num)
      have hfront : insert_desc key x (F2 ++ F1) = x :: (F2 ++ F1) :=
        insert_desc_front key x (F2 ++ F1) (fun y hy => by
          rcases List.mem_append.mp hy with hy | hy
          · rw [hx, h2 y hy]
          · rw [hx, h1 y hy]; norm_num)
      rw [List.append_assoc, hskip, hfront]
      simp [List.filter_cons, hx, hF3, hF2, hF1]
    · -- key x = 3: insert in front of everything
      have hfront : insert_desc key x ((F3 ++ F2) ++ F1) = x :: ((F3 ++ F2) ++ F1) :=
        insert_desc_front key x ((F3 ++ F2) ++ F1) (fun y hy => by
          rcases List.mem_append.mp hy with hy | hy
          · rcases List.mem_append.mp hy with hy | hy
            · rw [hx, h3 y hy]
            · rw [hx, h2 y hy]; norm_num
          · rw [hx, h1 y hy]; norm_num)
      rw [hfront]
      simp [List.filter_cons, hx, hF3, hF2, hF1]

theorem filters_pairwise_desc {α : Type} (key : α → Int) (l : List α) :
    (l.filter (fun r => decide (key r = 3)) ++ l.filter (fun r => decide (key r = 2))
      ++ l.filter (fun r => decide (key r = 1))).Pairwise
        (fun a b => key b ≤ key a) := by
  have h3 := mem_filter_key key 3 l
  have h2 := mem_filter_key key 2 l
  have h1 := mem_filter_key key 1 l
  rw [List.append_assoc, List.pairwise_append]
  refine ⟨List.pairwise_of_forall_mem_list
      (fun a ha b hb => by rw [h3 a ha, h3 b hb]), ?_, ?_⟩
  · rw [List.pairwise_append]
    refine ⟨List.pairwise_of_forall_mem_list
        (fun a ha b hb => by rw [h2 a ha, h2 b hb]),
      List.pairwise_of_forall_mem_list
        (fun a ha b hb => by rw [h1 a ha, h1 b hb]), ?_⟩
    intro a ha b hb
    rw [h2 a ha, h1 b hb]
    norm_num
  · intro a ha b hb
    rw [h3 a ha]
    rcases List.mem_append.mp hb with hb | hb
    · rw [h2 b hb]; norm_num
    · rw [h1 b hb]; norm_num

/-- C5: the recommendation list returned by `_recommend_concepts` has at
most 5 entries, its priorities are non-increasing under
`high > medium > low` (numeric sort key 3 > 2 > 1), and equal-priority
entries keep the order in which their gaps were discovered: the list is
exactly the concatenation of the priority-3, priority-2 and priority-1
emissions in original emission order, truncated to 5. -/
theorem recommendation_set_ordering (user_concepts : List String) (skill_level : String)
    (knowledge_gaps : List KnowledgeGap) :
    (recommend_concepts user_concepts skill_level knowledge_gaps).length ≤ 5 ∧
    (recommend_concepts user_concepts skill_level knowledge_gaps).Pairwise
      (fun a b => priority_rank b ≤ priority_rank a) ∧
    recommend_concepts user_concepts skill_level knowledge_gaps
      = (((knowledge_gaps.flatMap (recommendations_for_gap user_concepts skill_level)).filter
            (fun r => decide (priority_rank r = 3)))
        ++ ((knowledge_gaps.flatMap (recommendations_for_gap user_concepts skill_level)).filter
            (fun r => decide (priority_rank r = 2)))
        ++ ((knowledge_gaps.flatMap (recommendations_for_gap user_concepts skill_level)).filter
            (fun r => decide (priority_rank r = 1)))).take 5 := by
  have hsort := stable_sort_desc_eq_filters priority_rank
    (knowledge_gaps.flatMap (recommendations_for_gap user_concepts skill_level))
    (fun x _ => priority_rank_cases x)
  have heq : recommend_concepts user_concepts skill_level knowledge_gaps
      = (((knowledge_gaps.flatMap (recommendations_for_gap user_concepts skill_level)).filter
            (fun r => decide (priority_rank r = 3)))
        ++ ((knowledge_gaps.flatMap (recommendations_for_gap user_concepts skill_level)).filter
            (fun r => decide (priority_rank r = 2)))
        ++ ((knowledge_gaps.flatMap (recommendations_for_gap user_concepts skill_level)).filter
            (fun r => decide (priority_rank r = 1)))).take 5 := by
    unfold recommend_concepts
    rw [hsort]
  refine ⟨?_, ?_, heq⟩
  · rw [heq]
    exact List.length_take_le _ _
  · rw [heq]
    exact (filters_pairwise_desc priority_rank _).sublist (List.take_sublist _ _)

/-! ## Theorems: progress tracker claims -/

theorem filterMap_map_sublist {α β γ : Type} (f : α → Option β) (g : β → γ) (h' : α → γ)
    (l : List α) (H : ∀ a b, f a = some b → g b = h' a) :
    List.Sublist ((l.filterMap f).map g) (l.map h') := by
  induction l with
  | nil => simp
  | cons a as ih =>
    cases hfa : f a with
    | none =>
      simp only [List.filterMap_cons, hfa, List.map_cons]
      exact ih.cons _
    | some b =>
      simp only [List.filterMap_cons, hfa, List.map_cons, H a b hfa]
      exact ih.cons₂ _

theorem le_list_max (x : ℚ) : ∀ l : List ℚ, x ∈ l → x ≤ list_max l := by
  intro l
  induction l with
  | nil => simp
  | cons a as ih =>
    intro hx
    cases as with
    | nil =>
      rw [List.mem_singleton] at hx
      simp [list_max, hx]
    | cons b bs =>
      rcases List.mem_cons.mp hx with h | h
      · rw [h, list_max]
        exact le_max_left _ _
      · calc x ≤ list_max (b :: bs) := ih h
          _ ≤ list_max (a :: b :: bs) := by rw [list_max]; exact le_max_right _ _

theorem count_milestones_ids_sublist (subs : List TrackedSubmission) :
    List.Sublist ((count_milestones subs).map (·.id))
      ["10_submissions", "25_submissions", "50_submissions", "100_submissions"] := by
  have h := filterMap_map_sublist
    (fun c : Nat × String × String =>
      if subs.length ≥ c.1 then
        (subs[c.1 - 1]?).map (fun s =>
          ({ id := c.2.1, description := c.2.2, achieved_date := s.submitted_at,
             celebration_worthy := some true } : MilestoneRecord))
      else none)
    (·.id) (fun c => c.2.1) submission_milestone_criteria
    (fun c e he => by
      dsimp only at he ⊢
      split at he
      · cases hg : subs[c.1 - 1]? with
        | none => rw [hg] at he; simp at he
        | some s =>
          rw [hg] at he
          simp only [Option.map_some', Option.some.injEq] at he
          rw [← he]
      · cases he)
  simpa [count_milestones, submission_milestone_criteria] using h

theorem score_milestones_ids_sublist (subs : List TrackedSubmission) :
    List.Sublist ((score_milestones subs).map (·.id))
      ["first_good_score", "first_great_score", "excellence"] := by
  rw [score_milestones]
  split
  · simp
  · have h := filterMap_map_sublist
      (fun c : ℚ × String × String =>
        if list_max (subs.map (fun s => or_zero s.quality_score)) ≥ c.1 then
          (subs.find? (fun s => decide (or_zero s.quality_score ≥ c.1))).map (fun s =>
            ({ id := c.2.1, description := c.2.2, achieved_date := s.submitted_at,
               score := some s.quality_score } : MilestoneRecord))
        else none)
      (·.id) (fun c => c.2.1) score_milestone_criteria
      (fun c e he => by
        dsimp only at he ⊢
        split at he
        · cases hg : subs.find? (fun s => decide (or_zero s.quality_score ≥ c.1)) with
          | none => rw [hg] at he; simp at he
          | some s =>
            rw [hg] at he
            simp only [Option.map_some', Option.some.injEq] at he
            rw [← he]
        · cases he)
    simpa [score_milestone_criteria] using h

/-- C8: milestones fire exactly once and monotonically.  In every report
the achieved-milestone ids are pairwise distinct; a submission-count
milestone whose threshold is reached is recorded with the timestamp of
the threshold-th submission; a score milestone is recorded with the
timestamp of the chronologically first submission reaching its
threshold; and appending further submissions preserves every previously
recorded milestone entry unchanged — no milestone re-fires with a
different date on later samples. -/
theorem milestones_fire_once_monotone (subs extra : List TrackedSubmission) :
    ((track_milestones subs).milestones_achieved.map (·.id)).Nodup ∧
    (∀ c ∈ submission_milestone_criteria, ∀ s, subs[c.1 - 1]? = some s →
      subs.length ≥ c.1 →
      ({ id := c.2.1, description := c.2.2, achieved_date := s.submitted_at,
         celebration_worthy := some true } : MilestoneRecord)
        ∈ (track_milestones subs).milestones_achieved) ∧
    (∀ c ∈ score_milestone_criteria, ∀ s,
      subs.find? (fun s => decide (or_zero s.quality_score ≥ c.1)) = some s →
      ({ id := c.2.1, description := c.2.2, achieved_date := s.submitted_at,
         score := some s.quality_score } : MilestoneRecord)
        ∈ (track_milestones subs).milestones_achieved) ∧
    (∀ m ∈ (track_milestones subs).milestones_achieved,
      m ∈ (track_milestones (subs ++ extra)).milestones_achieved) := by
  have hcount_mem : ∀ l : List TrackedSubmission, ∀ c ∈ submission_milestone_criteria,
      ∀ s, l[c.1 - 1]? = some s → l.length ≥ c.1 →
      ({ id := c.2.1, description := c.2.2, achieved_date := s.submitted_at,
         celebration_worthy := some true } : MilestoneRecord) ∈ count_milestones l := by
    intro l c hc s hs hlen
    refine List.mem_filterMap.mpr ⟨c, hc, ?_⟩
    rw [if_pos hlen, hs]
    rfl
  have hscore_mem : ∀ l : List TrackedSubmission, ∀ c ∈ score_milestone_criteria,
      ∀ s, l.find? (fun s => decide (or_zero s.quality_score ≥ c.1)) = some s →
      ({ id := c.2.1, description := c.2.2, achieved_date := s.submitted_at,
         score := some s.quality_score } : MilestoneRecord) ∈ score_milestones l := by
    intro l c hc s hs
    have hsl : s ∈ l := List.mem_of_find?_eq_some hs
    have hsp : or_zero s.quality_score ≥ c.1 := by
      have := List.find?_some hs
      simpa using this
    have hmax : list_max (l.map (fun s => or_zero s.quality_score)) ≥ c.1 :=
      le_trans hsp (le_list_max _ _ (List.mem_map_of_mem _ hsl))
    have hne : l ≠ [] := by
      intro h
      rw [h] at hsl
      exact (List.not_mem_nil s) hsl
    rw [score_milestones]
    rw [if_neg (by simpa [List.isEmpty_iff] using hne)]
    refine List.mem_filterMap.mpr ⟨c, hc, ?_⟩
    rw [if_pos hmax, hs]
    rfl
  refine ⟨?_, fun c hc s hs hlen => List.mem_append_left _ (hcount_mem subs c hc s hs hlen),
    fun c hc s hs => List.mem_append_right _ (hscore_mem subs c hc s hs), ?_⟩
  · -- distinct milestone ids
    have h1 := count_milestones_ids_sublist subs
    have h2 := score_milestones_ids_sublist subs
    show ((count_milestones subs ++ score_milestones subs).map (·.id)).Nodup
    rw [List.map_append, List.nodup_append]
    refine ⟨h1.nodup (by decide), h2.nodup (by decide), ?_⟩
    intro a ha hb
    have ha4 := h1.subset ha
    have hb3 := h2.subset hb
    fin_cases ha4 <;> revert hb3 <;> decide
  · -- monotone replay: previously fired milestones persist unchanged
    intro m hm
    rcases List.mem_append.mp hm with hm | hm
    · obtain ⟨c, hc, hfc⟩ := List.mem_filterMap.mp hm
      split at hfc
      · next hlen =>
        cases hg : subs[c.1 - 1]? with
        | none => rw [hg] at hfc; simp at hfc
        | some s =>
          rw [hg] at hfc
          simp only [Option.map_some', Option.some.injEq] at hfc
          have hidx : c.1 - 1 < subs.length := by
            obtain ⟨hlt, -⟩ := List.getElem?_eq_some_iff.mp hg
            exact hlt
          have hs2 : (subs ++ extra)[c.1 - 1]? = some s := by
            rw [List.getElem?_append_left hidx, hg]
          have hlen2 : (subs ++ extra).length ≥ c.1 := by
            rw [List.length_append]
            omega
          rw [← hfc]
          exact List.mem_append_left _ (hcount_mem (subs ++ extra) c hc s hs2 hlen2)
      · cases hfc
    · rw [score_milestones] at hm
      split at hm
      · cases hm
      · obtain ⟨c, hc, hfc⟩ := List.mem_filterMap.mp hm
        split at hfc
        · cases hg : subs.find? (fun s => decide (or_zero s.quality_score ≥ c.1)) with
          | none => rw [hg] at hfc; simp at hfc
          | some s =>
            rw [hg] at hfc
            simp only [Option.map_some', Option.some.injEq] at hfc
            have hs2 : (subs ++ extra).find?
                (fun s => decide (or_zero s.quality_score ≥ c.1)) = some s := by
              rw [List.find?_append, hg, Option.or_some]
            rw [← hfc]
            exact List.mem_append_right _ (hscore_mem (subs ++ extra) c hc s hs2)
        · cases hfc

/-- Witness for C8 at a concrete single-submission history: the quality
score 95 fires the 60-threshold milestone dated at that submission. -/
theorem milestones_fire_once_monotone_witness :
    ({ id := "first_good_score", description := "Achieved first quality score above 60",
       achieved_date := 100, score := some (some 95) } : MilestoneRecord)
      ∈ (track_milestones
          [{ submitted_at := 100, week_key := "2024-W01",
             quality_score := some 95, complexity_score := some 80 }]).milestones_achieved :=
  (milestones_fire_once_monotone
      [{ submitted_at := 100, week_key := "2024-W01",
         quality_score := some 95, complexity_score := some 80 }] []).2.2.1
    (60, "first_good_score", "Achieved first quality score above 60") (by decide)
    { submitted_at := 100, week_key := "2024-W01",
      quality_score := some 95, complexity_score := some 80 } (by decide)

/-- C7 amended: the trend classification applies the least-squares slope
to the weekly aggregated score sequence (index = week bucket position in
first-seen order), not to the raw per-sample sequence: with fewer than 2
submissions the result is the bare `insufficient_data` record; with at
least 2 submissions the trend is the slope classification exactly when at
least two weekly buckets exist, and `insufficient_data` otherwise.  (The
returned summary never carries a slope field.) -/
theorem trend_weekly_ols_amended (subs : List TrackedSubmission) :
    (subs.length < 2 →
      track_skill_progression subs = { trend := "insufficient_data" }) ∧
    (2 ≤ subs.length → 2 ≤ (weekly_scores subs).length →
      (track_skill_progression subs).trend
        = classify_slope (ols_slope (weekly_scores subs))) ∧
    (2 ≤ subs.length → (weekly_scores subs).length < 2 →
      (track_skill_progression subs).trend = "insufficient_data") := by
  refine ⟨?_, ?_, ?_⟩
  · intro h
    simp only [track_skill_progression]
    rw [if_pos h]
  · intro h1 h2
    simp only [track_skill_progression]
    rw [if_neg (by omega), if_pos h2]
  · intro h1 h2
    simp only [track_skill_progression]
    rw [if_neg (by omega), if_neg (by omega)]

theorem ols_slope_40_70 : ols_slope [40, 70] = 30 := by
  norm_num [ols_slope, show List.range 2 = [0, 1] from rfl]

theorem classify_slope_30 : classify_slope 30 = "improving" := by
  rw [classify_slope, if_pos]
  rw [Rat.mkRat_eq_divInt, Rat.divInt_eq_div]
  norm_num

/-- C7 counterexample: two metric samples recorded in the same week.  The
least-squares slope over the two raw sample values `[40, 70]` is 30 and
classifies as `improving`, but the code aggregates by week first, sees a
single weekly bucket, and reports `insufficient_data` — so with at least
2 samples the trend is not obtained from the raw `(index, value)`
fit. -/
theorem trend_raw_samples_counterexample :
    ([{ submitted_at := 1, week_key := "2024-W01",
        quality_score := some 40, complexity_score := some 40 },
      { submitted_at := 2, week_key := "2024-W01",
        quality_score := some 70, complexity_score := some 70 }]
        : List TrackedSubmission).length = 2 ∧
    (track_skill_progression
      [{ submitted_at := 1, week_key := "2024-W01",
         quality_score := some 40, complexity_score := some 40 },
       { submitted_at := 2, week_key := "2024-W01",
         quality_score := some 70, complexity_score := some 70 }]).trend
      = "insufficient_data" ∧
    classify_slope (ols_slope [40, 70]) = "improving" ∧
    ("insufficient_data" : String) ≠ "improving" := by
  refine ⟨rfl, ?_, ?_, by decide⟩
  · simp only [track_skill_progression, weekly_scores, group_by_week, add_to_week,
      List.foldl]
    norm_num
  · rw [ols_slope_40_70, classify_slope_30]

/-- Witness for the amended C7: two submissions in different weeks with
weekly scores 40 and 70 classify as improving via the weekly OLS fit. -/
theorem trend_weekly_ols_amended_witness :
    (track_skill_progression
      [{ submitted_at := 1, week_key := "2024-W01",
         quality_score := some 40, complexity_score := some 40 },
       { submitted_at := 2, week_key := "2024-W02",
         quality_score := some 70, complexity_score := some 70 }]).trend
      = "improving" := by
  have hws : weekly_scores
      [{ submitted_at := 1, week_key := "2024-W01",
         quality_score := some 40, complexity_score := some 40 },
       { submitted_at := 2, week_key := "2024-W02",
         quality_score := some 70, complexity_score := some 70 }] = [40, 70] := by
    simp only [weekly_scores, group_by_week, add_to_week, List.foldl,
      if_neg (show ¬ ("2024-W01" = "2024-W02") by decide)]
    norm_num [list_mean, or_zero]
  have h := (trend_weekly_ols_amended
      [{ submitted_at := 1, week_key := "2024-W01",
         quality_score := some 40, complexity_score := some 40 },
       { submitted_at := 2, week_key := "2024-W02",
         quality_score := some 70, complexity_score := some 70 }]).2.1
    (by norm_num) (by rw [hws]; norm_num)
  rw [h, hws, ols_slope_40_70, classify_slope_30]

end CodingBuddy
